import Mathlib

/-!
Shallow embedding of `static/js/report.js` (SEOChecker client-side report page).

The file has two independent components:

* a filter pass (`applyFilters`) that shows/hides result rows according to two
  checkbox toggles;
* a pro-content loader (`loadProSteps`, `renderMdPlain`, `setContainerMessage`,
  `onOpenPro`) that toggles a per-check panel, lazily fetching its content over
  the network with an in-memory cache, gated by a page-scoped access flag.

DOM state touched by the handlers is modelled explicitly: the clicked button
(label and disabled flag), the per-check content panels (inline `display`
style and rendered children), the `Map` cache as an association list, the
pending redirect (`window.location.href` assignment) and a count of issued
network requests.  The network is an explicit environment value describing
the outcome of the single `fetch` a load sequence may perform.
-/

namespace SEOChecker

/-- One result row (`.check-row`): its two classification classes
(`status-na`, `status-pass`) and its inline `display` style. -/
structure Row where
  isNa : Bool
  isPass : Bool
  display : String
deriving DecidableEq, Repr

/-- The body of the `forEach` inside `applyFilters`: the two sequential
`if` statements deriving `hidden`, then the `display` assignment
(`"none"` when hidden, `""` otherwise). -/
def applyFilterRow (hideNa hidePass : Bool) (row : Row) : Row :=
  let hidden := false
  let hidden := if hideNa && row.isNa then true else hidden
  let hidden := if hidePass && row.isPass then true else hidden
  { row with display := if hidden then "none" else "" }

/-- The filter pass of `applyFilters`:  `toggleNa`/`togglePass` are the
checkbox controls (`none` when the control is absent from the page, in
which case the JS reads `false`), applied to every `.check-row`. -/
def applyFilters (toggleNa togglePass : Option Bool) (rows : List Row) : List Row :=
  let hideNa := match toggleNa with | some b => b | none => false
  let hidePass := match togglePass with | some b => b | none => false
  rows.map (applyFilterRow hideNa hidePass)

/-- The `#report-root` element: its `data-report-id` and `data-is-pro`
attributes (`getAttribute` returns `null`, i.e. `none`, when absent). -/
structure RootEl where
  dataReportId : Option String
  dataIsPro : Option String
deriving DecidableEq, Repr

/-- `const isPro = root ? root.getAttribute("data-is-pro") === "1" : false;`
(`root` is `none` when `#report-root` is missing from the document). -/
def isPro (root : Option RootEl) : Bool :=
  match root with
  | none => false
  | some r => r.dataIsPro = some "1"

/-- `const reportId = root ? root.getAttribute("data-report-id") : null;` -/
def reportIdOf (root : Option RootEl) : Option String :=
  match root with
  | none => none
  | some r => r.dataReportId

/-- A parsed JSON response body (the object returned by `r.json()`):
the fields `onOpenPro` inspects.  Each field is `none` when absent
(JS `undefined`). -/
structure JsonData where
  okField : Option Bool
  reasonField : Option String
  content_md : Option String
deriving DecidableEq, Repr

instance {ε α : Type} [DecidableEq ε] [DecidableEq α] : DecidableEq (Except ε α) :=
  fun x y =>
    match x, y with
    | .error a, .error b =>
      if h : a = b then .isTrue (by rw [h]) else .isFalse (fun hh => by cases hh; exact h rfl)
    | .error _, .ok _ => .isFalse (fun hh => by cases hh)
    | .ok _, .error _ => .isFalse (fun hh => by cases hh)
    | .ok a, .ok b =>
      if h : a = b then .isTrue (by rw [h]) else .isFalse (fun hh => by cases hh; exact h rfl)

/-- Outcome of the single `fetch` of a load sequence: either the promise
rejects (network failure), or a response arrives with an HTTP status and a
body whose JSON parse either throws (`Except.error`) or yields `null`
(`none`) or an object. -/
inductive FetchOutcome where
  | netThrow
  | resp (status : Nat) (body : Except Unit (Option JsonData))
deriving DecidableEq, Repr

/-- `loadProSteps(checkId)`:  throws (`Except.error`) when `reportId` is
missing or the fetch/parse throws; otherwise classifies the response:
HTTP 402/403 yield `{ok: false, reason: "PRO_REQUIRED"}`, any other
non-success status (`r.ok` is status 200–299) yields
`{ok: false, reason: "ERROR"}`, and a success status yields the parsed
body. -/
def loadProSteps (reportId : Option String) (env : FetchOutcome) :
    Except Unit (Option JsonData) :=
  match reportId with
  | none => .error ()
  | some _ =>
    match env with
    | .netThrow => .error ()
    | .resp status body =>
      if status = 402 ∨ status = 403 then
        .ok (some { okField := some false, reasonField := some "PRO_REQUIRED",
                    content_md := none })
      else if ¬ (200 ≤ status ∧ status ≤ 299) then
        .ok (some { okField := some false, reasonField := some "ERROR",
                    content_md := none })
      else body

/-- Rendered children of a `.pro-content` panel: either the server-rendered
initial children (never produced by this layer), or a `<pre class="pro-md">`
whose `textContent` is the given string (`renderMdPlain`, after
`innerHTML = ""`), or a `<div class="pro-md">` whose `textContent` is the
given message (`setContainerMessage`).  In both cases the string is inserted
through `textContent`, i.e. as text, never parsed as markup. -/
inductive Rendered where
  | initialChildren
  | preText (text : String)
  | msgText (text : String)
deriving DecidableEq, Repr

/-- `renderMdPlain(md)`: a `<pre class="pro-md">` with
`pre.textContent = md || ""` — the falsy empty string collapses to `""`. -/
def renderMdPlain (md : String) : Rendered :=
  .preText (if md = "" then "" else md)

/-- `setContainerMessage(container, msg)`: clears the panel and appends a
`<div class="pro-md">` with `div.textContent = msg`. -/
def setContainerMessage (msg : String) : Rendered :=
  .msgText msg

/-- A `.pro-content` panel: inline `display` style and rendered children. -/
structure Container where
  display : String
  content : Rendered
deriving DecidableEq, Repr

/-- The clicked `.pro-open-btn`: its `textContent` and `disabled` flag. -/
structure Button where
  textContent : String
  disabled : Bool
deriving DecidableEq, Repr

/-- Page state a click on a pro-open button can observe or mutate: the
panels keyed by `data-check-id` (first match wins, as `querySelector` does),
the `checkId -> content_md` cache, the clicked button, the pending redirect
and the number of network requests issued so far. -/
structure PageState where
  containers : List (String × Container)
  cache : List (String × String)
  btn : Button
  redirect : Option String
  requests : Nat
deriving DecidableEq, Repr

/-- Update the first panel with the given key, leaving the rest alone
(the JS mutates the single element `querySelector` returned). -/
def updateFirst (l : List (String × Container)) (k : String)
    (f : Container → Container) : List (String × Container) :=
  match l with
  | [] => []
  | (k', c) :: rest =>
    if k' = k then (k', f c) :: rest else (k', c) :: updateFirst rest k f

/-- `Map.prototype.set`: replace the binding of `k` if present, else append. -/
def mapSet (l : List (String × String)) (k v : String) :
    List (String × String) :=
  match l with
  | [] => [(k, v)]
  | (k', v') :: rest =>
    if k' = k then (k, v) :: rest else (k', v') :: mapSet rest k v

/-- `onOpenPro(checkId, btn)` as a state transition.  `pro` and `reportId`
are the page flags read at initialization; `env` is the outcome of the
fetch the sequence would perform.  Mirrors the JS branch for branch:
missing panel is a no-op; a visible panel is closed (label `"Show steps"`);
without pro access the browser is redirected to `/pricing`; otherwise the
load sequence runs: cache hit renders without a network request, a load
result classifies into the not-found / pro-required / success renderings,
and a thrown load shows the retry notice restoring `prevText || "Show
steps"`.  The `finally` clause leaves the button enabled in every branch of
the load sequence. -/
def onOpenPro (pro : Bool) (reportId : Option String) (env : FetchOutcome)
    (checkId : String) (s : PageState) : PageState :=
  match s.containers.lookup checkId with
  | none => s
  | some container =>
    if container.display ≠ "none" then
      { s with
        containers := updateFirst s.containers checkId
          (fun c => { c with display := "none" }),
        btn := { s.btn with textContent := "Show steps" } }
    else if ¬ pro then
      { s with redirect := some "/pricing" }
    else
      let prevText := s.btn.textContent
      match s.cache.lookup checkId with
      | some md =>
        { s with
          containers := updateFirst s.containers checkId
            (fun c =>
              { c with
                  content := renderMdPlain md,
                  display := "block" }),
          btn := { textContent := "Hide steps", disabled := false } }
      | none =>
        let requests := s.requests + (if reportId.isSome then 1 else 0)
        match loadProSteps reportId env with
        | .error _ =>
          { s with
            containers := updateFirst s.containers checkId
              (fun c =>
                { c with
                    display := "block",
                    content := setContainerMessage "Failed to load steps. Please try again." }),
            btn := { textContent := if prevText = "" then "Show steps" else prevText,
                     disabled := false },
            requests := requests }
        | .ok none =>
          { s with
            containers := updateFirst s.containers checkId
              (fun c =>
                { c with
                    display := "block",
                    content := setContainerMessage "Steps not found for this check yet." }),
            btn := { textContent := "Show steps", disabled := false },
            requests := requests }
        | .ok (some d) =>
          if d.okField = some false then
            if d.reasonField = some "PRO_REQUIRED" then
              { s with
                containers := updateFirst s.containers checkId
                  (fun c =>
                    { c with
                        display := "block",
                        content := setContainerMessage "Pro required to view step-by-step fixes." }),
                btn := { textContent := "Show steps", disabled := false },
                requests := requests }
            else
              { s with
                containers := updateFirst s.containers checkId
                  (fun c =>
                    { c with
                        display := "block",
                        content := setContainerMessage "Steps not found for this check yet." }),
                btn := { textContent := "Show steps", disabled := false },
                requests := requests }
          else
            let md := d.content_md.getD ""
            { s with
              cache := mapSet s.cache checkId md,
              containers := updateFirst s.containers checkId
                (fun c =>
                  { c with
                      content := renderMdPlain md,
                      display := "block" }),
              btn := { textContent := "Hide steps", disabled := false },
              requests := requests }

/-! Concrete fixtures: a small page used to evaluate the theorems below on
closed inputs. -/

/-- A page with one pro panel `"c1"`, hidden, empty cache, enabled button. -/
def stClosed : PageState :=
  { containers := [("c1", { display := "none", content := .initialChildren })],
    cache := [],
    btn := { textContent := "Show steps", disabled := false },
    redirect := none,
    requests := 0 }

/-- The same page with the `"c1"` panel currently visible. -/
def stOpen : PageState :=
  { containers := [("c1", { display := "block", content := .initialChildren })],
    cache := [],
    btn := { textContent := "Hide steps", disabled := false },
    redirect := none,
    requests := 0 }

/-- The hidden-panel page whose trigger button has an empty label. -/
def stEmptyLabel : PageState :=
  { containers := [("c1", { display := "none", content := .initialChildren })],
    cache := [],
    btn := { textContent := "", disabled := false },
    redirect := none,
    requests := 0 }

/-- A page with two hidden pro panels `"c1"` and `"c2"`. -/
def stTwoPanels : PageState :=
  { containers := [("c1", { display := "none", content := .initialChildren }),
                   ("c2", { display := "none", content := .initialChildren })],
    cache := [],
    btn := { textContent := "Show steps", disabled := false },
    redirect := none,
    requests := 0 }

/-- A root element marking a pro user (`data-is-pro="1"`). -/
def rootPro : Option RootEl :=
  some { dataReportId := some "r1", dataIsPro := some "1" }

/-- A root element whose `data-is-pro` attribute is `"true"`, not `"1"`. -/
def rootTrue : Option RootEl :=
  some { dataReportId := some "r1", dataIsPro := some "true" }

/-- A root element with no `data-is-pro` attribute. -/
def rootNoAttr : Option RootEl :=
  some { dataReportId := some "r1", dataIsPro := none }

/-- The failure object `loadProSteps` builds for a 402/403 response. -/
def proRequiredBody : JsonData :=
  { okField := some false, reasonField := some "PRO_REQUIRED", content_md := none }

/-- A 200 response whose JSON body carries `content_md: "Step 1"`. -/
def envOk200 : FetchOutcome :=
  .resp 200 (.ok (some { okField := none, reasonField := none,
                         content_md := some "Step 1" }))

/-- A 403 response. -/
def env403 : FetchOutcome := .resp 403 (.ok none)

/-- A 500 response with a `null` JSON body. -/
def env500 : FetchOutcome := .resp 500 (.ok none)

/-! Association-list lemmas for `updateFirst` and `mapSet`. -/

theorem lookup_updateFirst_self {l : List (String × Container)} {k : String}
    {c : Container} (f : Container → Container) (h : l.lookup k = some c) :
    (updateFirst l k f).lookup k = some (f c) := by
  induction l with
  | nil => simp [List.lookup] at h
  | cons hd tl ih =>
    obtain ⟨k', c'⟩ := hd
    by_cases hk : k' = k
    · subst hk
      simp [List.lookup, updateFirst] at h ⊢
      exact h ▸ rfl
    · have hk' : (k == k') = false := by
        simp [beq_iff_eq]; exact fun hh => hk hh.symm
      simp [List.lookup, updateFirst, hk, hk'] at h ⊢
      exact ih h

theorem lookup_updateFirst_ne {l : List (String × Container)} {k k' : String}
    (f : Container → Container) (h : k' ≠ k) :
    (updateFirst l k f).lookup k' = l.lookup k' := by
  induction l with
  | nil => simp [updateFirst]
  | cons hd tl ih =>
    obtain ⟨k₀, c₀⟩ := hd
    by_cases hk : k₀ = k
    · subst hk
      have : (k' == k₀) = false := by simp [beq_iff_eq]; exact h
      simp [List.lookup, updateFirst, this]
    · simp [List.lookup, updateFirst, hk]
      cases hb : (k' == k₀) with
      | true => rfl
      | false => exact ih

theorem lookup_mapSet_self {l : List (String × String)} {k v : String} :
    (mapSet l k v).lookup k = some v := by
  induction l with
  | nil => simp [mapSet, List.lookup]
  | cons hd tl ih =>
    obtain ⟨k', v'⟩ := hd
    by_cases hk : k' = k
    · subst hk
      simp [mapSet, List.lookup]
    · have hk' : (k == k') = false := by
        simp [beq_iff_eq]; exact fun hh => hk hh.symm
      simp [mapSet, List.lookup, hk, hk']
      exact ih

theorem lookup_mapSet_ne {l : List (String × String)} {k k' v : String}
    (h : k' ≠ k) : (mapSet l k v).lookup k' = l.lookup k' := by
  induction l with
  | nil =>
    have : (k' == k) = false := by simp [beq_iff_eq]; exact h
    simp [mapSet, List.lookup, this]
  | cons hd tl ih =>
    obtain ⟨k₀, v₀⟩ := hd
    by_cases hk : k₀ = k
    · subst hk
      have h1 : (k' == k₀) = false := by simp [beq_iff_eq]; exact h
      simp [mapSet, List.lookup, h1]
    · simp [mapSet, List.lookup, hk]
      cases hb : (k' == k₀) with
      | true => rfl
      | false => exact ih

/-! Branch lemmas: one per control-flow path of `onOpenPro`. -/

theorem onOpenPro_noPanel {pro : Bool} {rid : Option String} {env : FetchOutcome}
    {checkId : String} {s : PageState}
    (h : s.containers.lookup checkId = none) :
    onOpenPro pro rid env checkId s = s := by
  unfold onOpenPro
  rw [h]

theorem onOpenPro_close {pro : Bool} {rid : Option String} {env : FetchOutcome}
    {checkId : String} {s : PageState} {c : Container}
    (hc : s.containers.lookup checkId = some c) (hv : c.display ≠ "none") :
    onOpenPro pro rid env checkId s =
      { s with
        containers := updateFirst s.containers checkId
          (fun c => { c with display := "none" }),
        btn := { s.btn with textContent := "Show steps" } } := by
  unfold onOpenPro
  rw [hc]
  simp [hv]

theorem onOpenPro_redirect {rid : Option String} {env : FetchOutcome}
    {checkId : String} {s : PageState} {c : Container}
    (hc : s.containers.lookup checkId = some c) (hv : c.display = "none") :
    onOpenPro false rid env checkId s = { s with redirect := some "/pricing" } := by
  unfold onOpenPro
  rw [hc]
  simp [hv]

theorem onOpenPro_cacheHit {rid : Option String} {env : FetchOutcome}
    {checkId : String} {s : PageState} {c : Container} {md : String}
    (hc : s.containers.lookup checkId = some c) (hv : c.display = "none")
    (hm : s.cache.lookup checkId = some md) :
    onOpenPro true rid env checkId s =
      { s with
        containers := updateFirst s.containers checkId
          (fun c =>
            { c with
                content := renderMdPlain md,
                display := "block" }),
        btn := { textContent := "Hide steps", disabled := false } } := by
  unfold onOpenPro
  rw [hc]
  simp [hv, hm]

theorem onOpenPro_throw {rid : Option String} {env : FetchOutcome}
    {checkId : String} {s : PageState} {c : Container}
    (hc : s.containers.lookup checkId = some c) (hv : c.display = "none")
    (hm : s.cache.lookup checkId = none)
    (hl : loadProSteps rid env = .error ()) :
    onOpenPro true rid env checkId s =
      { s with
        containers := updateFirst s.containers checkId
          (fun c =>
            { c with
                display := "block",
                content := setContainerMessage "Failed to load steps. Please try again." }),
        btn := { textContent := if s.btn.textContent = "" then "Show steps"
                                else s.btn.textContent,
                 disabled := false },
        requests := s.requests + (if rid.isSome then 1 else 0) } := by
  unfold onOpenPro
  rw [hc]
  simp [hv, hm, hl]

theorem onOpenPro_null {rid : Option String} {env : FetchOutcome}
    {checkId : String} {s : PageState} {c : Container}
    (hc : s.containers.lookup checkId = some c) (hv : c.display = "none")
    (hm : s.cache.lookup checkId = none)
    (hl : loadProSteps rid env = .ok none) :
    onOpenPro true rid env checkId s =
      { s with
        containers := updateFirst s.containers checkId
          (fun c =>
            { c with
                display := "block",
                content := setContainerMessage "Steps not found for this check yet." }),
        btn := { textContent := "Show steps", disabled := false },
        requests := s.requests + (if rid.isSome then 1 else 0) } := by
  unfold onOpenPro
  rw [hc]
  simp [hv, hm, hl]

theorem onOpenPro_proRequired {rid : Option String} {env : FetchOutcome}
    {checkId : String} {s : PageState} {c : Container} {d : JsonData}
    (hc : s.containers.lookup checkId = some c) (hv : c.display = "none")
    (hm : s.cache.lookup checkId = none)
    (hl : loadProSteps rid env = .ok (some d))
    (hok : d.okField = some false) (hr : d.reasonField = some "PRO_REQUIRED") :
    onOpenPro true rid env checkId s =
      { s with
        containers := updateFirst s.containers checkId
          (fun c =>
            { c with
                display := "block",
                content := setContainerMessage "Pro required to view step-by-step fixes." }),
        btn := { textContent := "Show steps", disabled := false },
        requests := s.requests + (if rid.isSome then 1 else 0) } := by
  unfold onOpenPro
  rw [hc]
  simp [hv, hm, hl, hok, hr]

theorem onOpenPro_errNotice {rid : Option String} {env : FetchOutcome}
    {checkId : String} {s : PageState} {c : Container} {d : JsonData}
    (hc : s.containers.lookup checkId = some c) (hv : c.display = "none")
    (hm : s.cache.lookup checkId = none)
    (hl : loadProSteps rid env = .ok (some d))
    (hok : d.okField = some false) (hr : d.reasonField ≠ some "PRO_REQUIRED") :
    onOpenPro true rid env checkId s =
      { s with
        containers := updateFirst s.containers checkId
          (fun c =>
            { c with
                display := "block",
                content := setContainerMessage "Steps not found for this check yet." }),
        btn := { textContent := "Show steps", disabled := false },
        requests := s.requests + (if rid.isSome then 1 else 0) } := by
  unfold onOpenPro
  rw [hc]
  simp [hv, hm, hl, hok, hr]

theorem onOpenPro_success {rid : Option String} {env : FetchOutcome}
    {checkId : String} {s : PageState} {c : Container} {d : JsonData}
    (hc : s.containers.lookup checkId = some c) (hv : c.display = "none")
    (hm : s.cache.lookup checkId = none)
    (hl : loadProSteps rid env = .ok (some d))
    (hok : d.okField ≠ some false) :
    onOpenPro true rid env checkId s =
      { s with
        cache := mapSet s.cache checkId (d.content_md.getD ""),
        containers := updateFirst s.containers checkId
          (fun c =>
            { c with
                content := renderMdPlain (d.content_md.getD ""),
                display := "block" }),
        btn := { textContent := "Hide steps", disabled := false },
        requests := s.requests + (if rid.isSome then 1 else 0) } := by
  unfold onOpenPro
  rw [hc]
  simp [hv, hm, hl, hok]

/-! Cache discipline and request-count helpers. -/

/-- The cache is left untouched by a click, except that a successful fetch
binds the clicked identifier (which was unbound, since a bound identifier
short-circuits to the cache-hit branch). -/
theorem onOpenPro_cache_cases (pro : Bool) (rid : Option String)
    (env : FetchOutcome) (cid : String) (s : PageState) :
    (onOpenPro pro rid env cid s).cache = s.cache ∨
    ∃ d, loadProSteps rid env = .ok (some d) ∧ d.okField ≠ some false ∧
      s.cache.lookup cid = none ∧
      (onOpenPro pro rid env cid s).cache =
        mapSet s.cache cid (d.content_md.getD "") := by
  cases hc : s.containers.lookup cid with
  | none => left; rw [onOpenPro_noPanel hc]
  | some c =>
    by_cases hv : c.display = "none"
    · cases pro with
      | false => left; rw [onOpenPro_redirect hc hv]
      | true =>
        cases hm : s.cache.lookup cid with
        | some md => left; rw [onOpenPro_cacheHit hc hv hm]
        | none =>
          cases hl : loadProSteps rid env with
          | error e => left; cases e; rw [onOpenPro_throw hc hv hm hl]
          | ok data =>
            cases data with
            | none => left; rw [onOpenPro_null hc hv hm hl]
            | some d =>
              by_cases hok : d.okField = some false
              · by_cases hr : d.reasonField = some "PRO_REQUIRED"
                · left; rw [onOpenPro_proRequired hc hv hm hl hok hr]
                · left; rw [onOpenPro_errNotice hc hv hm hl hok hr]
              · right
                refine ⟨d, rfl, hok, rfl, ?_⟩
                rw [onOpenPro_success hc hv hm hl hok]
    · left; rw [onOpenPro_close hc hv]

/-- An existing cache binding survives every click unchanged. -/
theorem onOpenPro_cache_persist (pro : Bool) (rid : Option String)
    (env : FetchOutcome) (cid : String) (s : PageState) (k v : String)
    (h : s.cache.lookup k = some v) :
    (onOpenPro pro rid env cid s).cache.lookup k = some v := by
  rcases onOpenPro_cache_cases pro rid env cid s with heq | ⟨d, _, _, hm, heq⟩
  · rw [heq]; exact h
  · rw [heq]
    by_cases hk : k = cid
    · subst hk; rw [hm] at h; cases h
    · rw [lookup_mapSet_ne hk]; exact h

/-- Every load-sequence branch that runs `loadProSteps` bumps the request
count by one exactly when a report id is present (the fetch is issued before
any classification, and a missing report id throws before fetching). -/
theorem onOpenPro_load_requests {rid : Option String} {env : FetchOutcome}
    {cid : String} {s : PageState} {c : Container}
    (hc : s.containers.lookup cid = some c) (hv : c.display = "none")
    (hm : s.cache.lookup cid = none) :
    (onOpenPro true rid env cid s).requests =
      s.requests + (if rid.isSome then 1 else 0) := by
  cases hl : loadProSteps rid env with
  | error e => cases e; rw [onOpenPro_throw hc hv hm hl]
  | ok data =>
    cases data with
    | none => rw [onOpenPro_null hc hv hm hl]
    | some d =>
      by_cases hok : d.okField = some false
      · by_cases hr : d.reasonField = some "PRO_REQUIRED"
        · rw [onOpenPro_proRequired hc hv hm hl hok hr]
        · rw [onOpenPro_errNotice hc hv hm hl hok hr]
      · rw [onOpenPro_success hc hv hm hl hok]

/-- Every load-sequence branch leaves the clicked panel visible
(`display = "block"`): the fetched content, a notice, or the retry message. -/
theorem onOpenPro_load_opens {rid : Option String} {env : FetchOutcome}
    {cid : String} {s : PageState} {c : Container}
    (hc : s.containers.lookup cid = some c) (hv : c.display = "none")
    (hm : s.cache.lookup cid = none) :
    ∃ r, (onOpenPro true rid env cid s).containers.lookup cid =
      some { display := "block", content := r } := by
  cases hl : loadProSteps rid env with
  | error e =>
    cases e
    rw [onOpenPro_throw hc hv hm hl]
    exact ⟨_, lookup_updateFirst_self _ hc⟩
  | ok data =>
    cases data with
    | none =>
      rw [onOpenPro_null hc hv hm hl]
      exact ⟨_, lookup_updateFirst_self _ hc⟩
    | some d =>
      by_cases hok : d.okField = some false
      · by_cases hr : d.reasonField = some "PRO_REQUIRED"
        · rw [onOpenPro_proRequired hc hv hm hl hok hr]
          exact ⟨_, lookup_updateFirst_self _ hc⟩
        · rw [onOpenPro_errNotice hc hv hm hl hok hr]
          exact ⟨_, lookup_updateFirst_self _ hc⟩
      · rw [onOpenPro_success hc hv hm hl hok]
        exact ⟨_, lookup_updateFirst_self _ hc⟩

/-- The inline style `"block"` differs from `"none"`: a just-opened panel
counts as visible on the next click. -/
theorem block_ne_none : ("block" : String) ≠ "none" := by decide

/-- Closing a hidden-again panel and reopening it without a cache entry
issues one more network request: the toggle sequence close-then-open on a
visible panel whose identifier is unbound in the cache always re-fetches. -/
theorem c1_reopen_aux (rid : String) (env₂ env₃ : FetchOutcome) (cid : String)
    (s₁ s₂ s₃ : PageState) (c₁ : Container)
    (hc1 : s₁.containers.lookup cid = some c₁) (hv1 : c₁.display ≠ "none")
    (hm1 : s₁.cache.lookup cid = none)
    (e₂ : onOpenPro true (some rid) env₂ cid s₁ = s₂)
    (e₃ : onOpenPro true (some rid) env₃ cid s₂ = s₃) :
    s₃.requests = s₁.requests + 1 := by
  rw [onOpenPro_close hc1 hv1] at e₂
  subst e₂
  have hc2 :
      ({ s₁ with
          containers := updateFirst s₁.containers cid
            (fun c => { c with display := "none" }),
          btn := { s₁.btn with textContent := "Show steps" } } :
        PageState).containers.lookup cid =
        some { display := "none", content := c₁.content } :=
    lookup_updateFirst_self _ hc1
  have h := @onOpenPro_load_requests (some rid) env₃ cid _ _ hc2 rfl hm1
  rw [e₃] at h
  simpa using h

/-- Every failing load branch (throw, null body, or an `ok: false` object)
produces the same state shape: the panel made visible with some notice
message, an enabled button with some label, one more issued request, and —
notably — an untouched cache. -/
theorem onOpenPro_loadFail_state {rid : Option String} {env : FetchOutcome}
    {cid : String} {s : PageState} {c : Container}
    (hc : s.containers.lookup cid = some c) (hv : c.display = "none")
    (hm : s.cache.lookup cid = none)
    (hfail : loadProSteps rid env = .error () ∨
      loadProSteps rid env = .ok none ∨
      ∃ d, loadProSteps rid env = .ok (some d) ∧ d.okField = some false) :
    ∃ msg btnText, onOpenPro true rid env cid s =
      { s with
        containers := updateFirst s.containers cid
          (fun c => { c with display := "block", content := .msgText msg }),
        btn := { textContent := btnText, disabled := false },
        requests := s.requests + (if rid.isSome then 1 else 0) } := by
  rcases hfail with hl | hl | ⟨d, hl, hok⟩
  · exact ⟨_, _, onOpenPro_throw hc hv hm hl⟩
  · exact ⟨_, _, onOpenPro_null hc hv hm hl⟩
  · by_cases hr : d.reasonField = some "PRO_REQUIRED"
    · exact ⟨_, _, onOpenPro_proRequired hc hv hm hl hok hr⟩
    · exact ⟨_, _, onOpenPro_errNotice hc hv hm hl hok hr⟩

/-- First open succeeds: one request, a cache binding, and a
close-then-reopen serves from the cache with no further request. -/
theorem c1_success_aux (rid : String) (env₁ env₂ env₃ : FetchOutcome)
    (cid : String) (s₀ s₁ s₂ s₃ : PageState) (c : Container) (d : JsonData)
    (hc : s₀.containers.lookup cid = some c) (hv : c.display = "none")
    (hm : s₀.cache.lookup cid = none)
    (hl : loadProSteps (some rid) env₁ = .ok (some d))
    (hok : d.okField ≠ some false)
    (e₁ : onOpenPro true (some rid) env₁ cid s₀ = s₁)
    (e₂ : onOpenPro true (some rid) env₂ cid s₁ = s₂)
    (e₃ : onOpenPro true (some rid) env₃ cid s₂ = s₃) :
    s₁.requests = s₀.requests + 1 ∧
    s₁.cache.lookup cid = some (d.content_md.getD "") ∧
    s₃.requests = s₀.requests + 1 := by
  rw [onOpenPro_success hc hv hm hl hok] at e₁
  have hreq1 : s₁.requests = s₀.requests + 1 := by rw [← e₁]; simp
  have hm1 : s₁.cache.lookup cid = some (d.content_md.getD "") := by
    rw [← e₁]; exact lookup_mapSet_self
  have hc1 : s₁.containers.lookup cid =
      some { display := "block",
             content := renderMdPlain (d.content_md.getD "") } := by
    rw [← e₁]; exact lookup_updateFirst_self _ hc
  rw [onOpenPro_close hc1 block_ne_none] at e₂
  have hc2 : s₂.containers.lookup cid =
      some { display := "none",
             content := renderMdPlain (d.content_md.getD "") } := by
    rw [← e₂]; exact lookup_updateFirst_self _ hc1
  have hm2 : s₂.cache.lookup cid = some (d.content_md.getD "") := by
    rw [← e₂]; exact hm1
  have hreq2 : s₂.requests = s₁.requests := by rw [← e₂]
  rw [onOpenPro_cacheHit hc2 rfl hm2] at e₃
  have hreq3 : s₃.requests = s₂.requests := by rw [← e₃]
  exact ⟨hreq1, hm1, by rw [hreq3, hreq2, hreq1]⟩

/-- First open fails (throw, null body, or an `ok: false` object): the
cache stays empty and a close-then-reopen issues a second request. -/
theorem c1_failure_aux (rid : String) (env₁ env₂ env₃ : FetchOutcome)
    (cid : String) (s₀ s₁ s₂ s₃ : PageState) (c : Container)
    (hc : s₀.containers.lookup cid = some c) (hv : c.display = "none")
    (hm : s₀.cache.lookup cid = none)
    (hfail : loadProSteps (some rid) env₁ = .error () ∨
      loadProSteps (some rid) env₁ = .ok none ∨
      ∃ d, loadProSteps (some rid) env₁ = .ok (some d) ∧ d.okField = some false)
    (e₁ : onOpenPro true (some rid) env₁ cid s₀ = s₁)
    (e₂ : onOpenPro true (some rid) env₂ cid s₁ = s₂)
    (e₃ : onOpenPro true (some rid) env₃ cid s₂ = s₃) :
    s₁.cache = s₀.cache ∧
    s₁.requests = s₀.requests + 1 ∧
    s₃.requests = s₀.requests + 2 := by
  obtain ⟨msg, btnText, e⟩ := onOpenPro_loadFail_state hc hv hm hfail
  rw [e] at e₁
  have hcache : s₁.cache = s₀.cache := by rw [← e₁]
  have hreq1 : s₁.requests = s₀.requests + 1 := by rw [← e₁]; simp
  have hc1 : s₁.containers.lookup cid =
      some { display := "block", content := Rendered.msgText msg } := by
    rw [← e₁]; exact lookup_updateFirst_self _ hc
  have hm1 : s₁.cache.lookup cid = none := by rw [hcache]; exact hm
  have h3 := c1_reopen_aux rid env₂ env₃ cid s₁ s₂ s₃ _ hc1 block_ne_none hm1 e₂ e₃
  refine ⟨hcache, hreq1, ?_⟩
  rw [h3, hreq1]

/-- A 402 or 403 response classifies as the PRO_REQUIRED failure object. -/
theorem loadProSteps_accessDenied (rid : String) (status : Nat)
    (body : Except Unit (Option JsonData)) (h : status = 402 ∨ status = 403) :
    loadProSteps (some rid) (.resp status body) =
      .ok (some { okField := some false, reasonField := some "PRO_REQUIRED",
                  content_md := none }) := by
  rcases h with rfl | rfl <;> rfl

/-! Claim theorems. -/

/-- C9: a click whose item identifier has no matching content panel is a
complete no-op: the page state (button label and disabled flag, all panels,
cache, redirect, request count) is returned unchanged and no fetch is
issued. -/
theorem claim_C9 (pro : Bool) (rid : Option String) (env : FetchOutcome)
    (cid : String) (s : PageState)
    (h : s.containers.lookup cid = none) :
    onOpenPro pro rid env cid s = s :=
  onOpenPro_noPanel h

theorem claim_C9_witness :
    onOpenPro true (some "r1") envOk200 "missing" stTwoPanels = stTwoPanels :=
  claim_C9 true (some "r1") envOk200 "missing" stTwoPanels (by decide)

/-- C10: a click on a trigger whose panel is visible takes the close branch:
that panel's `display` becomes `"none"` with its rendered children intact,
the button label becomes `"Show steps"`, and the button's disabled flag,
the cache, every other panel, the redirect and the request count are
unchanged. -/
theorem claim_C10 (pro : Bool) (rid : Option String) (env : FetchOutcome)
    (cid : String) (s : PageState) (c : Container)
    (hc : s.containers.lookup cid = some c) (hv : c.display ≠ "none") :
    (onOpenPro pro rid env cid s).containers.lookup cid =
      some { display := "none", content := c.content } ∧
    (∀ k, k ≠ cid → (onOpenPro pro rid env cid s).containers.lookup k =
      s.containers.lookup k) ∧
    (onOpenPro pro rid env cid s).btn.textContent = "Show steps" ∧
    (onOpenPro pro rid env cid s).btn.disabled = s.btn.disabled ∧
    (onOpenPro pro rid env cid s).cache = s.cache ∧
    (onOpenPro pro rid env cid s).redirect = s.redirect ∧
    (onOpenPro pro rid env cid s).requests = s.requests := by
  rw [onOpenPro_close hc hv]
  refine ⟨?_, ?_, rfl, rfl, rfl, rfl, rfl⟩
  · exact lookup_updateFirst_self _ hc
  · intro k hk
    exact lookup_updateFirst_ne _ hk

theorem claim_C10_witness :
    (onOpenPro true (some "r1") envOk200 "c1" stOpen).containers.lookup "c1" =
      some { display := "none", content := .initialChildren } ∧
    (onOpenPro true (some "r1") envOk200 "c1" stOpen).btn.textContent =
      "Show steps" ∧
    (onOpenPro true (some "r1") envOk200 "c1" stOpen).cache = stOpen.cache ∧
    (onOpenPro true (some "r1") envOk200 "c1" stOpen).requests =
      stOpen.requests := by
  obtain ⟨h1, _, h3, _, h5, _, h7⟩ :=
    claim_C10 true (some "r1") envOk200 "c1" stOpen
      { display := "block", content := .initialChildren } (by decide) (by decide)
  exact ⟨h1, h3, h5, h7⟩

/-- C2 counterexample: with the Access Flag false, a click on a trigger
whose panel is currently visible does not redirect (it closes the panel,
which is also a panel state change), refuting the claim's universal
quantification over every trigger click. -/
theorem claim_C2_counterexample :
    (onOpenPro false (some "r1") envOk200 "c1" stOpen).redirect = none ∧
    (onOpenPro false (some "r1") envOk200 "c1" stOpen).containers.lookup "c1" =
      some { display := "none", content := .initialChildren } := by
  constructor <;> decide

/-- C2 (amended): for every trigger click on an existing, currently hidden
panel, when the Access Flag is false no network request is issued and the
browser is redirected to the pricing page with no panel state change — the
whole state change is setting the redirect.  (A click on a visible panel
closes it without redirecting; a click without a matching panel is a
no-op.) -/
theorem claim_C2 (rid : Option String) (env : FetchOutcome) (cid : String)
    (s : PageState) (c : Container)
    (hc : s.containers.lookup cid = some c) (hv : c.display = "none") :
    onOpenPro false rid env cid s = { s with redirect := some "/pricing" } ∧
    (onOpenPro false rid env cid s).requests = s.requests ∧
    (onOpenPro false rid env cid s).containers = s.containers ∧
    (onOpenPro false rid env cid s).btn = s.btn := by
  rw [onOpenPro_redirect hc hv]
  exact ⟨rfl, rfl, rfl, rfl⟩

theorem claim_C2_witness :
    onOpenPro false (some "r1") envOk200 "c1" stClosed =
      { stClosed with redirect := some "/pricing" } ∧
    (onOpenPro false (some "r1") envOk200 "c1" stClosed).requests =
      stClosed.requests := by
  obtain ⟨h1, h2, _, _⟩ :=
    claim_C2 (some "r1") envOk200 "c1" stClosed
      { display := "none", content := .initialChildren } (by decide) (by decide)
  exact ⟨h1, h2⟩

/-- C7: whenever the load sequence runs (panel exists and is hidden, access
flag true) — cache hit, success, PRO_REQUIRED, ERROR and thrown exception
alike — the trigger ends the click enabled: the `finally` clause clears
`disabled` in every terminating branch. -/
theorem claim_C7 (rid : Option String) (env : FetchOutcome) (cid : String)
    (s : PageState) (c : Container)
    (hc : s.containers.lookup cid = some c) (hv : c.display = "none") :
    (onOpenPro true rid env cid s).btn.disabled = false := by
  cases hm : s.cache.lookup cid with
  | some md => rw [onOpenPro_cacheHit hc hv hm]
  | none =>
    cases hl : loadProSteps rid env with
    | error e => cases e; rw [onOpenPro_throw hc hv hm hl]
    | ok data =>
      cases data with
      | none => rw [onOpenPro_null hc hv hm hl]
      | some d =>
        by_cases hok : d.okField = some false
        · by_cases hr : d.reasonField = some "PRO_REQUIRED"
          · rw [onOpenPro_proRequired hc hv hm hl hok hr]
          · rw [onOpenPro_errNotice hc hv hm hl hok hr]
        · rw [onOpenPro_success hc hv hm hl hok]

theorem claim_C7_witness :
    (onOpenPro true (some "r1") .netThrow "c1"
      { stClosed with btn := { textContent := "Show steps", disabled := true } }
      ).btn.disabled = false :=
  claim_C7 (some "r1") .netThrow "c1"
    { stClosed with btn := { textContent := "Show steps", disabled := true } }
    { display := "none", content := .initialChildren } (by decide) (by decide)

/-- C8: the Access Flag is true exactly when the root element exists and its
`data-is-pro` attribute is the string `"1"` (any other value, an absent
attribute, or an absent root gives false); and with the flag false a click
on an existing hidden panel redirects to `/pricing` instead of fetching. -/
theorem claim_C8 :
    (∀ root, isPro root = true ↔
      ∃ r, root = some r ∧ r.dataIsPro = some "1") ∧
    (∀ root rid env cid s c, isPro root = false →
      s.containers.lookup cid = some c → c.display = "none" →
      onOpenPro (isPro root) rid env cid s =
        { s with redirect := some "/pricing" } ∧
      (onOpenPro (isPro root) rid env cid s).requests = s.requests) := by
  constructor
  · intro root
    cases root with
    | none => simp [isPro]
    | some r => simp [isPro]
  · intro root rid env cid s c hflag hc hv
    rw [hflag, onOpenPro_redirect hc hv]
    exact ⟨rfl, rfl⟩

theorem claim_C8_witness :
    isPro rootTrue = false ∧
    isPro rootNoAttr = false ∧
    isPro none = false ∧
    isPro rootPro = true ∧
    onOpenPro (isPro rootTrue) (some "r1") envOk200 "c1" stClosed =
      { stClosed with redirect := some "/pricing" } := by
  refine ⟨by decide, by decide, by decide, ?_, ?_⟩
  · exact (claim_C8.1 rootPro).mpr ⟨_, rfl, rfl⟩
  · exact (claim_C8.2 rootTrue (some "r1") envOk200 "c1" stClosed
      { display := "none", content := .initialChildren }
      (by decide) (by decide) (by decide)).1

/-- C3: a fetch answered with HTTP 402 or 403 makes the load result
`{ok: false, reason: "PRO_REQUIRED"}`, and the click then shows the panel
containing the access-denied notice while the trigger label reads
`"Show steps"`, not `"Hide steps"`. -/
theorem claim_C3 :
    (∀ (rid : String) (status : Nat) (body : Except Unit (Option JsonData)),
      status = 402 ∨ status = 403 →
      loadProSteps (some rid) (.resp status body) =
        .ok (some { okField := some false, reasonField := some "PRO_REQUIRED",
                    content_md := none })) ∧
    (∀ (rid : String) (status : Nat) (body : Except Unit (Option JsonData))
      (cid : String) (s : PageState) (c : Container),
      status = 402 ∨ status = 403 →
      s.containers.lookup cid = some c → c.display = "none" →
      s.cache.lookup cid = none →
      (onOpenPro true (some rid) (.resp status body) cid s).containers.lookup cid
          = some { display := "block",
                   content := .msgText "Pro required to view step-by-step fixes." } ∧
      (onOpenPro true (some rid) (.resp status body) cid s).btn.textContent =
        "Show steps" ∧
      (onOpenPro true (some rid) (.resp status body) cid s).btn.textContent ≠
        "Hide steps") := by
  constructor
  · exact loadProSteps_accessDenied
  · intro rid status body cid s c h hc hv hm
    rw [onOpenPro_proRequired hc hv hm (loadProSteps_accessDenied rid status body h)
      rfl rfl]
    refine ⟨?_, rfl, ?_⟩
    · exact lookup_updateFirst_self _ hc
    · show ("Show steps" : String) ≠ "Hide steps"
      decide

theorem claim_C3_witness :
    loadProSteps (some "r1") env403 =
      .ok (some { okField := some false, reasonField := some "PRO_REQUIRED",
                  content_md := none }) ∧
    (onOpenPro true (some "r1") env403 "c1" stClosed).containers.lookup "c1" =
      some { display := "block",
             content := .msgText "Pro required to view step-by-step fixes." } ∧
    (onOpenPro true (some "r1") env403 "c1" stClosed).btn.textContent =
      "Show steps" := by
  constructor
  · exact claim_C3.1 "r1" 403 (.ok none) (Or.inr rfl)
  · obtain ⟨h1, h2, _⟩ :=
      claim_C3.2 "r1" 403 (.ok none) "c1" stClosed
        { display := "none", content := .initialChildren }
        (Or.inr rfl) (by decide) (by decide) (by decide)
    exact ⟨h1, h2⟩

/-- C4 counterexample: the claim requires the label to be restored to
exactly the pre-loading text in the thrown-exception path, but the code
runs `btn.textContent = prevText || "Show steps"`: with an empty
pre-loading label the restored label is `"Show steps"`, not the empty
string it displayed before loading began. -/
theorem claim_C4_counterexample :
    stEmptyLabel.btn.textContent = "" ∧
    (onOpenPro true (some "r1") .netThrow "c1" stEmptyLabel).btn.textContent =
      "Show steps" ∧
    ("Show steps" : String) ≠ "" := by
  refine ⟨by decide, by decide, by decide⟩

/-- C4 (amended): a load sequence that throws (network failure, or the
missing-report-identifier error thrown before the fetch) is caught by its
own failure path: the panel shows the generic retry notice, the trigger is
re-enabled, and the label is restored to the exact text it displayed
immediately before loading began whenever that text was nonempty; an empty
pre-loading label falls back to `"Show steps"` (`prevText || "Show
steps"`). -/
theorem claim_C4 :
    (∀ env, loadProSteps none env = .error ()) ∧
    (∀ (rid : Option String) (env : FetchOutcome) (cid : String)
      (s : PageState) (c : Container),
      s.containers.lookup cid = some c → c.display = "none" →
      s.cache.lookup cid = none →
      loadProSteps rid env = .error () →
      (onOpenPro true rid env cid s).containers.lookup cid =
        some { display := "block",
               content := .msgText "Failed to load steps. Please try again." } ∧
      (onOpenPro true rid env cid s).btn.disabled = false ∧
      (onOpenPro true rid env cid s).btn.textContent =
        (if s.btn.textContent = "" then "Show steps" else s.btn.textContent) ∧
      (s.btn.textContent ≠ "" →
        (onOpenPro true rid env cid s).btn.textContent = s.btn.textContent)) := by
  constructor
  · intro env; rfl
  · intro rid env cid s c hc hv hm hl
    rw [onOpenPro_throw hc hv hm hl]
    refine ⟨?_, rfl, rfl, ?_⟩
    · exact lookup_updateFirst_self _ hc
    · intro h
      simp [h]

theorem claim_C4_witness :
    (onOpenPro true (some "r1") .netThrow "c1" stClosed).btn.textContent =
      "Show steps" ∧
    (onOpenPro true (some "r1") .netThrow "c1" stClosed).btn.disabled = false ∧
    (onOpenPro true (some "r1") .netThrow "c1" stClosed).containers.lookup "c1" =
      some { display := "block",
             content := .msgText "Failed to load steps. Please try again." } := by
  obtain ⟨h1, h2, _, h4⟩ :=
    claim_C4.2 (some "r1") .netThrow "c1" stClosed
      { display := "none", content := .initialChildren }
      (by decide) (by decide) (by decide) (by rfl)
  exact ⟨h4 (by decide), h2, h1⟩

/-- C5: a successful fetch stores `content_md` in the cache under the item
identifier, renders it into the panel as a `<pre>` via `textContent`
(plain text, never parsed as markup), sets the label to `"Hide steps"`,
and an absent or empty `content_md` is treated as the empty string rather
than an error. -/
theorem claim_C5 (rid : Option String) (env : FetchOutcome) (cid : String)
    (s : PageState) (c : Container) (d : JsonData)
    (hc : s.containers.lookup cid = some c) (hv : c.display = "none")
    (hm : s.cache.lookup cid = none)
    (hl : loadProSteps rid env = .ok (some d))
    (hok : d.okField ≠ some false) :
    (onOpenPro true rid env cid s).cache.lookup cid =
      some (d.content_md.getD "") ∧
    (onOpenPro true rid env cid s).containers.lookup cid =
      some { display := "block", content := .preText (d.content_md.getD "") } ∧
    (onOpenPro true rid env cid s).btn.textContent = "Hide steps" ∧
    (d.content_md = none → d.content_md.getD "" = "") ∧
    (d.content_md = some "" → d.content_md.getD "" = "") := by
  rw [onOpenPro_success hc hv hm hl hok]
  have hrender : renderMdPlain (d.content_md.getD "") =
      .preText (d.content_md.getD "") := by
    unfold renderMdPlain
    by_cases h : d.content_md.getD "" = "" <;> simp [h]
  refine ⟨lookup_mapSet_self, ?_, rfl, ?_, ?_⟩
  · rw [← hrender]
    exact lookup_updateFirst_self _ hc
  · intro h; rw [h]; rfl
  · intro h; rw [h]; rfl

theorem claim_C5_witness :
    (onOpenPro true (some "r1") envOk200 "c1" stClosed).cache.lookup "c1" =
      some "Step 1" ∧
    (onOpenPro true (some "r1") envOk200 "c1" stClosed).containers.lookup "c1" =
      some { display := "block", content := .preText "Step 1" } ∧
    (onOpenPro true (some "r1") envOk200 "c1" stClosed).btn.textContent =
      "Hide steps" := by
  obtain ⟨h1, h2, h3, _, _⟩ :=
    claim_C5 (some "r1") envOk200 "c1" stClosed
      { display := "none", content := .initialChildren }
      { okField := none, reasonField := none, content_md := some "Step 1" }
      (by decide) (by decide) (by decide) (by rfl) (by decide)
  exact ⟨h1, h2, h3⟩

/-- The derived `hidden` of a filtered row is the disjunction of the two
toggle-and-tag conjunctions. -/
theorem applyFilterRow_display (hideNa hidePass : Bool) (row : Row) :
    (applyFilterRow hideNa hidePass row).display =
      (if (hideNa && row.isNa) || (hidePass && row.isPass) then "none" else "") := by
  unfold applyFilterRow
  cases ha : hideNa && row.isNa <;> cases hb : hidePass && row.isPass <;> simp [ha, hb]

/-- C6: after a filter pass, a row is hidden (inline `display` `"none"`)
iff `(toggleA.checked AND row.hasTagA) OR (toggleB.checked AND row.hasTagB)`,
an unhidden row gets `display` `""`; an absent toggle control behaves as an
unchecked one, and an absent row set makes the pass a no-op. -/
theorem claim_C6 :
    (∀ tA tP rows, (applyFilters tA tP rows).length = rows.length) ∧
    (∀ (tA tP : Option Bool) (rows : List Row) (i : Nat) (dRow : Row),
      i < rows.length →
      (((applyFilters tA tP rows).getD i dRow).display = "none" ↔
        ((tA.getD false && (rows.getD i dRow).isNa) ||
         (tP.getD false && (rows.getD i dRow).isPass)) = true)) ∧
    (∀ (tA tP : Option Bool) (rows : List Row) (i : Nat) (dRow : Row),
      i < rows.length →
      ((tA.getD false && (rows.getD i dRow).isNa) ||
       (tP.getD false && (rows.getD i dRow).isPass)) = false →
      ((applyFilters tA tP rows).getD i dRow).display = "") ∧
    (∀ tP rows, applyFilters none tP rows = applyFilters (some false) tP rows) ∧
    (∀ tA rows, applyFilters tA none rows = applyFilters tA (some false) rows) ∧
    (∀ tA tP, applyFilters tA tP [] = []) := by
  have hget : ∀ (tA tP : Option Bool) (rows : List Row) (i : Nat) (dRow : Row)
      (h : i < rows.length),
      (applyFilters tA tP rows).getD i dRow =
        applyFilterRow (tA.getD false) (tP.getD false) (rows.getD i dRow) := by
    intro tA tP rows i dRow h
    have hlen : i < (applyFilters tA tP rows).length := by
      simpa [applyFilters] using h
    rw [List.getD_eq_getElem _ _ hlen, List.getD_eq_getElem _ _ h]
    cases tA <;> cases tP <;> simp [applyFilters, Option.getD]
  refine ⟨?_, ?_, ?_, ?_, ?_, ?_⟩
  · intro tA tP rows
    simp [applyFilters]
  · intro tA tP rows i dRow h
    rw [hget tA tP rows i dRow h, applyFilterRow_display]
    cases hcond : (tA.getD false && (rows.getD i dRow).isNa) ||
        (tP.getD false && (rows.getD i dRow).isPass) with
    | true => simp [hcond]
    | false => simp [hcond]
  · intro tA tP rows i dRow h hcond
    rw [hget tA tP rows i dRow h, applyFilterRow_display, hcond]
    rfl
  · intro tP rows; rfl
  · intro tA rows; rfl
  · intro tA tP; rfl

theorem claim_C6_witness :
    ((applyFilters (some true) none
        [{ isNa := true, isPass := false, display := "" }]).getD 0
      { isNa := false, isPass := false, display := "" }).display = "none" := by
  have h := claim_C6.2.1 (some true) none
    [{ isNa := true, isPass := false, display := "" }] 0
    { isNa := false, isPass := false, display := "" } (by decide)
  exact h.mpr (by decide)

/-- C1: cache entries are created only by a successful fetch and are never
removed or overwritten (an existing binding survives every click); opening
a panel with no cache entry issues one request, and after closing it a
second open issues none when the first fetch succeeded and populated the
cache, but issues a new request when the first attempt ended in
PRO_REQUIRED, ERROR or a thrown exception (which leave the cache
unpopulated). -/
theorem claim_C1 :
    (∀ (pro : Bool) (rid : Option String) (env : FetchOutcome)
      (cid : String) (s : PageState) (k v : String),
      s.cache.lookup k = some v →
      (onOpenPro pro rid env cid s).cache.lookup k = some v) ∧
    (∀ (pro : Bool) (rid : Option String) (env : FetchOutcome)
      (cid : String) (s : PageState),
      (onOpenPro pro rid env cid s).cache = s.cache ∨
      ∃ d, loadProSteps rid env = .ok (some d) ∧ d.okField ≠ some false ∧
        s.cache.lookup cid = none ∧
        (onOpenPro pro rid env cid s).cache =
          mapSet s.cache cid (d.content_md.getD "")) ∧
    (∀ (rid : String) (env₁ env₂ env₃ : FetchOutcome) (cid : String)
      (s₀ : PageState) (c : Container) (d : JsonData),
      s₀.containers.lookup cid = some c → c.display = "none" →
      s₀.cache.lookup cid = none →
      loadProSteps (some rid) env₁ = .ok (some d) → d.okField ≠ some false →
      (onOpenPro true (some rid) env₁ cid s₀).requests = s₀.requests + 1 ∧
      (onOpenPro true (some rid) env₁ cid s₀).cache.lookup cid =
        some (d.content_md.getD "") ∧
      (onOpenPro true (some rid) env₃ cid (onOpenPro true (some rid) env₂ cid
        (onOpenPro true (some rid) env₁ cid s₀))).requests =
        s₀.requests + 1) ∧
    (∀ (rid : String) (env₁ env₂ env₃ : FetchOutcome) (cid : String)
      (s₀ : PageState) (c : Container),
      s₀.containers.lookup cid = some c → c.display = "none" →
      s₀.cache.lookup cid = none →
      (loadProSteps (some rid) env₁ = .error () ∨
       loadProSteps (some rid) env₁ = .ok none ∨
       ∃ d, loadProSteps (some rid) env₁ = .ok (some d) ∧
         d.okField = some false) →
      (onOpenPro true (some rid) env₁ cid s₀).cache = s₀.cache ∧
      (onOpenPro true (some rid) env₁ cid s₀).requests = s₀.requests + 1 ∧
      (onOpenPro true (some rid) env₃ cid (onOpenPro true (some rid) env₂ cid
        (onOpenPro true (some rid) env₁ cid s₀))).requests =
        s₀.requests + 2) := by
  refine ⟨onOpenPro_cache_persist, onOpenPro_cache_cases, ?_, ?_⟩
  · intro rid env₁ env₂ env₃ cid s₀ c d hc hv hm hl hok
    exact c1_success_aux rid env₁ env₂ env₃ cid s₀ _ _ _ c d
      hc hv hm hl hok rfl rfl rfl
  · intro rid env₁ env₂ env₃ cid s₀ c hc hv hm hfail
    exact c1_failure_aux rid env₁ env₂ env₃ cid s₀ _ _ _ c
      hc hv hm hfail rfl rfl rfl

theorem claim_C1_witness :
    (onOpenPro true (some "r1") envOk200 "c1" stClosed).requests = 1 ∧
    (onOpenPro true (some "r1") envOk200 "c1" stClosed).cache.lookup "c1" =
      some "Step 1" ∧
    (onOpenPro true (some "r1") env500 "c1"
      (onOpenPro true (some "r1") env403 "c1"
        (onOpenPro true (some "r1") envOk200 "c1" stClosed))).requests = 1 ∧
    (onOpenPro true (some "r1") env500 "c1"
      (onOpenPro true (some "r1") envOk200 "c1"
        (onOpenPro true (some "r1") env403 "c1" stClosed))).requests = 2 := by
  obtain ⟨h1, h2, h3⟩ :=
    claim_C1.2.2.1 "r1" envOk200 env403 env500 "c1" stClosed
      { display := "none", content := .initialChildren }
      { okField := none, reasonField := none, content_md := some "Step 1" }
      (by decide) (by decide) (by decide) (by rfl) (by decide)
  obtain ⟨_, _, h6⟩ :=
    claim_C1.2.2.2 "r1" env403 envOk200 env500 "c1" stClosed
      { display := "none", content := .initialChildren }
      (by decide) (by decide) (by decide)
      (Or.inr (Or.inr ⟨proRequiredBody, rfl, rfl⟩))
  exact ⟨h1, h2, h3, h6⟩

end SEOChecker
